import Mathlib

/-!
Verification of the containerd container-engine resolver
(`userspace/libsinsp/container_engine/containerd.cpp`).

The development shallowly embeds the source file: protobuf/gRPC responses,
the JSON runtime-spec document and filesystem probes become explicit data,
and the two stateful entry points (`containerd::containerd`,
`containerd::resolve`) become pure functions over that data.  `Option` wraps
results whose C++ computation can reach undefined behaviour (a null
`m_interface` dereference, an out-of-bounds `std::vector` index): `none`
models that the C++ execution is undefined there, `some r` a defined
result `r`.
-/

namespace Libsinsp

/-! ## Basic string helpers (models of the C++ std::string operations used) -/

/-- Model of C++ `std::string::rfind`: the largest index `i` (`i ≤ l.length`)
at which `pat` occurs in `l`, or `none` (C++ `npos`) when it does not occur.
Positions inside the tail are preferred, matching `rfind`'s search from the
end of the string. -/
def lastFind (pat : List Char) : List Char → Option Nat
  | [] => if pat.isEmpty then some 0 else none
  | c :: cs =>
    match lastFind pat cs with
    | some i => some (i + 1)
    | none => if pat.isPrefixOf (c :: cs) then some 0 else none

/-- Model of C++ `std::string::find`-style first-occurrence search: the
smallest index at which `pat` occurs in `l`, or `none` when it does not. -/
def findSub (pat : List Char) : List Char → Option Nat
  | [] => if pat.isEmpty then some 0 else none
  | c :: cs =>
    if pat.isPrefixOf (c :: cs) then some 0
    else (findSub pat cs).map (· + 1)

/-- `hasSub s sub` holds when `sub` occurs in `s` as a contiguous substring. -/
def hasSub (s sub : String) : Bool := (findSub sub.data s.data).isSome

/-- `strStartsWith s pre` holds when `pre` is a prefix of `s`. -/
def strStartsWith (s pre : String) : Bool := pre.data.isPrefixOf s.data

/-- Model of C++ `s.substr(n)` (for `n ≤ s.size()`): drop the first `n`
characters. -/
def strDropN (s : String) (n : Nat) : String := ⟨s.data.drop n⟩

/-- Model of C++ `s.substr(0, n)`: take the first `n` characters (all of `s`
when `n` is `npos`-large, as in C++). -/
def strTakeN (s : String) (n : Nat) : String := ⟨s.data.take n⟩

/-- Modelled from the spec: `sinsp_split` (a libsinsp utility whose source is
not part of this file set) — "Split the descriptor's image reference on `:`".
`splitChar` splits a character list at every occurrence of the delimiter. -/
def splitChar (d : Char) : List Char → List (List Char)
  | [] => [[]]
  | c :: cs =>
    if c = d then [] :: splitChar d cs
    else
      match splitChar d cs with
      | t :: ts => (c :: t) :: ts
      | [] => [[c]]

/-- Modelled from the spec: `sinsp_split` splits a string on a delimiter
character, returning the (non-empty) list of pieces. -/
def sinsp_split (s : String) (d : Char) : List String :=
  (splitChar d s.data).map (fun l => ⟨l⟩)

/-! ## Data model -/

/-- Runtime backend tag (`sinsp_container_type`); only the two values this
engine touches are modelled. -/
inductive ContainerType where
  | CT_CONTAINERD
  | CT_UNKNOWN
deriving Repr, DecidableEq

/-- Lookup state of a record (`sinsp_container_lookup::state`); the spec's
`{pending, successful, failed}`. -/
inductive LookupState where
  | pending
  | successful
  | failed
deriving Repr, DecidableEq

/-- One mount tuple (`sinsp_container_info::container_mount_info`):
(source, destination, mode, writable, propagation). -/
structure MountInfo where
  m_source : String
  m_dest : String
  m_mode : String
  m_rdwr : Bool
  m_propagation : String
deriving Repr, DecidableEq

/-- The resolved container record (`sinsp_container_info`), restricted to the
fields this engine reads or writes. -/
structure ContainerInfo where
  m_id : String
  m_full_id : String
  m_name : String
  m_image : String
  m_imagerepo : String
  m_imagetag : String
  m_imagedigest : String
  m_type : ContainerType
  m_labels : List (String × String)
  m_mounts : List MountInfo
  m_env : List String
  m_memory_limit : Int
  m_cpu_shares : Int
  m_cpu_quota : Int
  m_cpu_period : Int
  m_cpuset_cpu_count : Int
  m_lookup_state : LookupState
deriving Repr, DecidableEq

/-- A freshly default-constructed `sinsp_container_info` (the local
`container` of `containerd::resolve`); numeric defaults are external to the
source file and irrelevant to the claims, zero is used. -/
def ContainerInfo.empty : ContainerInfo :=
  { m_id := "", m_full_id := "", m_name := "", m_image := "", m_imagerepo := ""
    m_imagetag := "", m_imagedigest := "", m_type := .CT_UNKNOWN
    m_labels := [], m_mounts := [], m_env := []
    m_memory_limit := 0, m_cpu_shares := 0, m_cpu_quota := 0, m_cpu_period := 0
    m_cpuset_cpu_count := 0, m_lookup_state := .pending }

/-- One mount entry of the runtime-spec JSON document
(`spec["mounts"][i]`: `source`, `destination`, `options[]`). -/
structure SpecMount where
  source : String
  destination : String
  options : List String
deriving Repr, DecidableEq

/-- The fields of the runtime-spec JSON document that the source consumes:
`mounts[]`, `linux.rootfsPropagation`, `process.env[]`.  A successfully
parsed document is structured data; absent fields read as empty, as JsonCpp
null values do. -/
structure SpecJson where
  mounts : List SpecMount
  rootfsPropagation : String
  env : List String
deriving Repr, DecidableEq

/-- One container descriptor of a `ListContainersResponse`
(`ContainerdService` message), restricted to the consumed fields.  The raw
`spec().value()` JSON blob together with the external `Json::Reader::parse`
call is modelled by its outcome: `none` when the document is malformed
(parse fails), `some doc` when it parses. -/
structure ContainerDesc where
  id : String
  image : String
  labels : List (String × String)
  spec : Option SpecJson
deriving Repr, DecidableEq

/-- Result of the gRPC `List` call (`containerd_interface::list_container_resp`):
a non-OK `grpc::Status` or the response's repeated `containers` field. -/
inductive ListResult where
  | err (msg : String)
  | ok (containers : List ContainerDesc)
deriving Repr, DecidableEq

/-- The backend (`class containerd`): `m_interface` is null, or a live query
channel, modelled by the response it yields for each filtered list call
(the call of `list_container_resp` for a given truncated id). -/
structure ContainerdEngine where
  m_interface : Option (String → ListResult)

/-- Key for the host-side limits query
(`libsinsp::cgroup_limits::cgroup_limits_key`). -/
structure LimitsKey where
  m_container_id : String
  m_cpu_cgroup : String
  m_mem_cgroup : String
  m_cpuset_cgroup : String
deriving Repr, DecidableEq

/-- Host-computed resource limits
(`libsinsp::cgroup_limits::cgroup_limits_value`). -/
structure LimitsValue where
  m_memory_limit : Int
  m_cpu_shares : Int
  m_cpu_quota : Int
  m_cpu_period : Int
  m_cpuset_cpu_count : Int
deriving Repr, DecidableEq

/-- A thread/process as this engine sees it: its cgroup set as
(subsystem, path) pairs, and its container association `m_container_id`
(empty when unset, as in `sinsp_threadinfo`). -/
structure ThreadInfo where
  cgroups : List (String × String)
  m_container_id : String
deriving Repr, DecidableEq

/-- Modelled from the spec: `sinsp_threadinfo::get_cgroup` (external) — the
per-controller cgroup path of the process for a subsystem, empty when the
subsystem is absent. -/
def get_cgroup (t : ThreadInfo) (subsys : String) : String :=
  match t.cgroups.find? (fun sc => decide (sc.1 = subsys)) with
  | some sc => sc.2
  | none => ""

/-- Modelled from the spec: the shared container cache (external) —
"deduplicates container records by identity"; `resolved` is the set of
container ids already looked up, `store` the published records. -/
structure CacheState where
  resolved : List String
  store : List ContainerInfo
deriving Repr, DecidableEq

/-- Modelled from the spec: `container_cache().should_lookup` (external) —
true exactly when the identity has not been resolved yet. -/
def should_lookup (cs : CacheState) (id : String) : Bool :=
  !(decide (id ∈ cs.resolved))

/-- Modelled from the spec: `container_cache().add_container` (external) —
publishes the record and marks its identity resolved. -/
def add_container (cs : CacheState) (c : ContainerInfo) : CacheState :=
  { resolved := c.m_id :: cs.resolved, store := c :: cs.store }

/-- Observable side effects of one `resolve` call: the limits query
(`get_cgroup_resource_limits`), the cache publication (`add_container`) and
the observer notification (`notify_new_container`). -/
inductive ResolveEvent where
  | limitsQuery (key : LimitsKey)
  | publish (c : ContainerInfo)
  | notifyNew (c : ContainerInfo)
deriving Repr, DecidableEq

def countPublish : List ResolveEvent → Nat
  | [] => 0
  | .publish _ :: es => countPublish es + 1
  | _ :: es => countPublish es

def countNotify : List ResolveEvent → Nat
  | [] => 0
  | .notifyNew _ :: es => countNotify es + 1
  | _ :: es => countNotify es

def countLimitsQuery : List ResolveEvent → Nat
  | [] => 0
  | .limitsQuery _ :: es => countLimitsQuery es + 1
  | _ :: es => countLimitsQuery es

/-! ## Backend construction (`containerd::containerd`, containerd.cpp:89-108) -/

/-- The fixed ordered candidate socket list `CONTAINERD_SOCKETS`
(containerd.cpp:32-35). -/
def CONTAINERD_SOCKETS : List String :=
  ["/run/host-containerd/containerd.sock",
   "/run/containerd/runtime2/containerd.sock"]

/-- The constructor loop of `containerd::containerd` (containerd.cpp:91-107)
over an arbitrary candidate list.  `isSock path` models
`stat(path) == 0 && (st_mode & S_IFMT) == S_IFSOCK`; `chanOk path` models
whether `containerd_interface(path)` ends with `is_ok()` (its probe `List`
call succeeded).  The accumulator is the current `m_interface`, identified
by the socket path it is bound to.  Note the loop body: an empty entry or a
non-socket path leaves `m_interface` alone (`continue`), while a live socket
path unconditionally overwrites it — with a working interface when the
channel probe succeeds, with null otherwise — and the loop then continues
with the next candidate (there is no `break`). -/
def containerd_ctor_scan (hostRoot : String) (isSock chanOk : String → Bool)
    (cands : List String) : Option String :=
  cands.foldl
    (fun acc p =>
      if p = "" then acc
      else if isSock (hostRoot ++ p) then
        (if chanOk (hostRoot ++ p) then some (hostRoot ++ p) else none)
      else acc)
    none

/-- `containerd::containerd` applied to the fixed candidate list: the
resulting `m_interface` binding (`some path` = bound to the channel for
`path`, `none` = null). -/
def containerd_ctor (hostRoot : String) (isSock chanOk : String → Bool) : Option String :=
  containerd_ctor_scan hostRoot isSock chanOk CONTAINERD_SOCKETS

/-- The candidate paths (in order, empty entries removed, host-root applied)
that exist as filesystem sockets. -/
def liveSockets (hostRoot : String) (isSock : String → Bool)
    (cands : List String) : List String :=
  ((cands.filter (fun p => decide (p ≠ ""))).map (fun p => hostRoot ++ p)).filter isSock

/-! ## Cgroup matching (external `matches_runc_cgroups`, layout containerd.cpp:30) -/

/-- The layout infix of `CONTAINERD_CGROUP_LAYOUT` (containerd.cpp:30):
`{"/default/", ""}`. -/
def cgroupLayoutToken : String := "/default/"

/-- Modelled from the spec: the external CgroupMatcher applied to a single
cgroup path — "given a process's cgroup paths and a layout table, extracts a
truncated container identifier and the matched cgroup path, or signals
no-match".  The layout recognises the infix `/default/` with empty suffix;
the spec leaves the exact identifier extraction to the external matcher, so
the identifier is modelled as the path remainder after the matched infix. -/
def matchCgroupPath (path : String) : Option String :=
  match findSub cgroupLayoutToken.data path.data with
  | some i => some (strDropN path (i + cgroupLayoutToken.data.length))
  | none => none

/-- Modelled from the spec: the external CgroupMatcher over the process's
cgroup set — the first cgroup path matching the layout yields
`(truncated id, cgroup path)`. -/
def matches_runc_cgroups_list : List (String × String) → Option (String × String)
  | [] => none
  | sc :: rest =>
    match matchCgroupPath sc.2 with
    | some id => some (id, sc.2)
    | none => matches_runc_cgroups_list rest

/-- Modelled from the spec: `matches_runc_cgroups(tinfo, CONTAINERD_CGROUP_LAYOUT, ...)`
(containerd.cpp:200). -/
def matches_runc_cgroups (t : ThreadInfo) : Option (String × String) :=
  matches_runc_cgroups_list t.cgroups

/-! ## Descriptor parsing (`containerd::parse_containerd`, containerd.cpp:110-193) -/

/-- Modelled from the spec: `sinsp_container_info::m_container_label_max_length`
(external constant) — "entries whose value exceeds a fixed maximum length are
dropped"; the concrete bound is irrelevant to the claims. -/
def container_label_max_length : Nat := 100

/-- One `m_labels[pair.first] = pair.second` insertion into the (keyed) label
map, overwriting an existing key. -/
def labelUpsert (m : List (String × String)) (p : String × String) :
    List (String × String) :=
  if m.any (fun q => decide (q.1 = p.1)) then
    m.map (fun q => if q.1 = p.1 then (q.1, p.2) else q)
  else m ++ [p]

/-- The label-copy loop (containerd.cpp:156-160): keep only entries whose
value length is within the bound. -/
def labelsFilter (labels : List (String × String))
    (acc : List (String × String)) : List (String × String) :=
  labels.foldl
    (fun m p =>
      if p.2.length ≤ container_label_max_length then labelUpsert m p else m)
    acc

/-- The option token `"ro"` test (`opt == "ro"`, containerd.cpp:174). -/
def isRoTok (o : String) : Bool := decide (o = "ro")

/-- The mode-option test as written in the source
(`opt.rfind("mode=") == 0`, containerd.cpp:176): the **last** occurrence of
`"mode="` in the token must be at position 0.  (Note: C++ `rfind` without a
position argument searches from the end, so a token containing `"mode="`
twice does not pass this test.) -/
def isModeTok (o : String) : Bool :=
  decide (lastFind "mode=".data o.data = some 0)

/-- The inner option loop body (containerd.cpp:172-179); the accumulator is
the pair `(readonly, mode)`. -/
def mountOptStep (acc : Bool × String) (opt : String) : Bool × String :=
  if isRoTok opt then (true, acc.2)
  else if isModeTok opt then (acc.1, strDropN opt 5)
  else acc

/-- The full option scan for one mount entry: `readonly = false; mode = ""`
then the loop of containerd.cpp:172-179. -/
def mountOptsScan (opts : List String) : Bool × String :=
  opts.foldl mountOptStep (false, "")

/-- The spec-document extraction (containerd.cpp:162-190): the mounts loop
and the env loop.  A malformed document (`Json::Reader::parse` failure, whose
return value the source ignores) leaves `spec` a null JSON value, over which
both loops iterate zero times. -/
def specExtract : Option SpecJson → List MountInfo × List String
  | none => ([], [])
  | some sj =>
    (sj.mounts.map (fun m =>
        let rm := mountOptsScan m.options
        { m_source := m.source, m_dest := m.destination, m_mode := rm.2,
          m_rdwr := !rm.1, m_propagation := sj.rootfsPropagation }),
     sj.env)

/-- The record assembly of containerd.cpp:145-190 for the single descriptor
`c0`, where `s0, s1` are `raw_image_splits[0]` and `raw_image_splits[1]`.
`m_image` is `s0.substr(s0.rfind("/") + 1)`: when `rfind` yields `npos`
(no `/`), `npos + 1` wraps to `0` and the whole of `s0` results.
`m_imagerepo` is `s0.substr(0, s0.rfind("/"))`: with `npos` as the count the
whole of `s0` results. -/
def assembleRecord (container : ContainerInfo) (container_id : String)
    (c0 : ContainerDesc) (s0 s1 : String) : ContainerInfo :=
  let ext := specExtract c0.spec
  { container with
    m_id := container_id
    m_full_id := c0.id
    m_image := strDropN s0 (match lastFind "/".data s0.data with
                            | some i => i + 1
                            | none => 0)
    m_imagerepo := (match lastFind "/".data s0.data with
                    | some i => strTakeN s0 i
                    | none => s0)
    m_imagetag := s1
    m_imagedigest := ""
    m_type := .CT_CONTAINERD
    m_labels := labelsFilter c0.labels container.m_labels
    m_mounts := container.m_mounts ++ ext.1
    m_env := container.m_env ++ ext.2 }

/-- `containerd::parse_containerd` (containerd.cpp:110-193).  `none` models
undefined behaviour: the unconditional `m_interface->list_container_resp`
dereference when `m_interface` is null (containerd.cpp:115), and the
out-of-bounds `raw_image_splits[0]` / `raw_image_splits[1]` vector accesses
(containerd.cpp:148,151) when the image reference splits into fewer than two
pieces.  `some (b, c)` is the returned flag together with the state of the
by-reference `container` argument on return. -/
def parse_containerd (iface : Option (String → ListResult))
    (container : ContainerInfo) (container_id : String) :
    Option (Bool × ContainerInfo) :=
  match iface with
  | none => none
  | some listCall =>
    match listCall container_id with
    | .err _ => some (false, container)
    | .ok [] => some (false, container)
    | .ok (_ :: _ :: _) => some (false, container)
    | .ok [c0] =>
      match sinsp_split c0.image ':' with
      | [] => none
      | [_] => none
      | s0 :: s1 :: _ => some (true, assembleRecord container container_id c0 s0 s1)

/-! ## Resolution (`containerd::resolve`, containerd.cpp:195-231) -/

/-- `containerd::resolve` (containerd.cpp:195-231).  Inputs beyond the
backend: `limitsFn` models the external
`libsinsp::cgroup_limits::get_cgroup_resource_limits`, `tinfo` the process,
`cache` the shared container cache.  The result is `none` on undefined
behaviour (propagated from `parse_containerd`), otherwise the returned
boolean, the final state of the local `container` record, the updated
thread info and cache, and the list of emitted side effects in order. -/
def resolve (be : ContainerdEngine) (limitsFn : LimitsKey → LimitsValue)
    (tinfo : ThreadInfo) (cache : CacheState) :
    Option (Bool × ContainerInfo × ThreadInfo × CacheState × List ResolveEvent) :=
  let container := ContainerInfo.empty
  match matches_runc_cgroups tinfo with
  | none => some (false, container, tinfo, cache, [])
  | some (container_id, _cgroup) =>
    match parse_containerd be.m_interface container container_id with
    | none => none
    | some (false, c1) => some (false, c1, tinfo, cache, [])
    | some (true, c1) =>
      let tinfo := { tinfo with m_container_id := container_id }
      let key : LimitsKey :=
        ⟨c1.m_id, get_cgroup tinfo "cpu", get_cgroup tinfo "memory",
         get_cgroup tinfo "cpuset"⟩
      let limits := limitsFn key
      let c2 := { c1 with
        m_memory_limit := limits.m_memory_limit
        m_cpu_shares := limits.m_cpu_shares
        m_cpu_quota := limits.m_cpu_quota
        m_cpu_period := limits.m_cpu_period
        m_cpuset_cpu_count := limits.m_cpuset_cpu_count }
      if should_lookup cache c2.m_id then
        let c3 := { c2 with m_name := c2.m_id, m_lookup_state := .successful }
        some (true, c3, tinfo, add_container cache c3,
              [.limitsQuery key, .publish c3, .notifyNew c3])
      else
        some (true, c2, tinfo, cache, [.limitsQuery key])

/-- Declarative mode value for C9: the value of the last option token the
source's test accepts, empty when there is none. -/
def modeOfOptions (opts : List String) : String :=
  (((opts.filter isModeTok).getLast?).map (fun t => strDropN t 5)).getD ""

/-- The limits key built at containerd.cpp:210-213 for a matched process. -/
def limitsKeyOf (t : ThreadInfo) (cid : String) : LimitsKey :=
  ⟨cid, get_cgroup t "cpu", get_cgroup t "memory", get_cgroup t "cpuset"⟩

/-- The local `container` record after the limits have been attached
(containerd.cpp:218-222). -/
def recWithLimits (limitsFn : LimitsKey → LimitsValue) (t : ThreadInfo)
    (cid : String) (d : ContainerDesc) (s0 s1 : String) : ContainerInfo :=
  let c1 := assembleRecord ContainerInfo.empty cid d s0 s1
  let limits := limitsFn (limitsKeyOf t cid)
  { c1 with
    m_memory_limit := limits.m_memory_limit
    m_cpu_shares := limits.m_cpu_shares
    m_cpu_quota := limits.m_cpu_quota
    m_cpu_period := limits.m_cpu_period
    m_cpuset_cpu_count := limits.m_cpuset_cpu_count }

/-- The record as published (containerd.cpp:225-226: name set to the id,
lookup state successful). -/
def recPublished (limitsFn : LimitsKey → LimitsValue) (t : ThreadInfo)
    (cid : String) (d : ContainerDesc) (s0 s1 : String) : ContainerInfo :=
  { recWithLimits limitsFn t cid d s0 s1 with
    m_name := cid, m_lookup_state := .successful }

/-! ## Helper lemmas -/

theorem splitChar_ne_nil (d : Char) : ∀ l : List Char, splitChar d l ≠ []
  | [] => by simp [splitChar]
  | c :: cs => by
    by_cases hc : c = d
    · simp [splitChar, hc]
    · have ih := splitChar_ne_nil d cs
      cases h : splitChar d cs with
      | nil => exact absurd h ih
      | cons t ts => simp [splitChar, hc, h]

theorem splitChar_head (d : Char) :
    ∀ l : List Char,
      (splitChar d l).head? = some (l.takeWhile (fun c => decide (c ≠ d)))
  | [] => by simp [splitChar]
  | c :: cs => by
    by_cases hc : c = d
    · simp [splitChar, hc]
    · have ih := splitChar_head d cs
      cases h : splitChar d cs with
      | nil => exact absurd h (splitChar_ne_nil d cs)
      | cons t ts =>
        rw [h] at ih
        simp only [List.head?_cons, Option.some.injEq] at ih
        simp [splitChar, hc, h, List.takeWhile_cons, ih]

theorem mem_of_mem_takeWhile {α : Type} (p : α → Bool) :
    ∀ (l : List α) (a : α), a ∈ l.takeWhile p → a ∈ l
  | [], a => by simp
  | b :: bs, a => by
    intro h
    rw [List.takeWhile_cons] at h
    by_cases hb : p b
    · simp only [hb, if_true, List.mem_cons] at h
      rcases h with h | h
      · simp [h]
      · exact List.mem_cons_of_mem _ (mem_of_mem_takeWhile p bs a h)
    · simp [hb] at h

theorem lastFind_single_none (c : Char) :
    ∀ l : List Char, (∀ a ∈ l, a ≠ c) → lastFind [c] l = none
  | [] => by intro _; simp [lastFind]
  | b :: bs => by
    intro h
    have ih := lastFind_single_none c bs (fun a ha => h a (List.mem_cons_of_mem _ ha))
    have hb : ¬(c == b) = true := by
      simp only [beq_iff_eq]
      exact fun hcb => (h b (by simp)) hcb.symm
    simp [lastFind, ih, List.isPrefixOf, hb]

theorem matchCgroupPath_none (p : String)
    (h : hasSub p cgroupLayoutToken = false) : matchCgroupPath p = none := by
  unfold hasSub at h
  cases hx : findSub cgroupLayoutToken.data p.data with
  | some i => rw [hx] at h; simp at h
  | none => simp [matchCgroupPath, hx]

theorem matches_list_none :
    ∀ l : List (String × String),
      (∀ sc ∈ l, hasSub sc.2 cgroupLayoutToken = false) →
      matches_runc_cgroups_list l = none
  | [] => by intro _; rfl
  | sc :: rest => by
    intro h
    have h1 := matchCgroupPath_none sc.2 (h sc (by simp))
    have ih := matches_list_none rest (fun x hx => h x (List.mem_cons_of_mem _ hx))
    simp [matches_runc_cgroups_list, h1, ih]

theorem mountOptsFold_fst :
    ∀ (opts : List String) (acc : Bool × String),
      (opts.foldl mountOptStep acc).1 = (acc.1 || opts.any isRoTok)
  | [], acc => by simp
  | o :: os, acc => by
    simp only [List.foldl_cons, List.any_cons]
    by_cases h : isRoTok o
    · rw [show mountOptStep acc o = (true, acc.2) by simp [mountOptStep, h]]
      rw [mountOptsFold_fst os (true, acc.2)]
      simp [h]
    · by_cases h2 : isModeTok o
      · rw [show mountOptStep acc o = (acc.1, strDropN o 5) by
          simp [mountOptStep, h, h2]]
        rw [mountOptsFold_fst os (acc.1, strDropN o 5)]
        simp [h]
      · rw [show mountOptStep acc o = acc by simp [mountOptStep, h, h2]]
        rw [mountOptsFold_fst os acc]
        simp [h]

theorem mountOptsFold_snd :
    ∀ (opts : List String) (acc : Bool × String),
      (opts.foldl mountOptStep acc).2 =
        (((opts.filter isModeTok).getLast?).map (fun t => strDropN t 5)).getD acc.2
  | [], acc => by simp
  | o :: os, acc => by
    simp only [List.foldl_cons, List.filter_cons]
    by_cases h : isRoTok o
    · have hro : o = "ro" := by simpa [isRoTok] using h
      have hmode : isModeTok o = false := by rw [hro]; decide
      rw [show mountOptStep acc o = (true, acc.2) by simp [mountOptStep, h]]
      rw [mountOptsFold_snd os (true, acc.2)]
      simp [hmode]
    · by_cases h2 : isModeTok o
      · rw [show mountOptStep acc o = (acc.1, strDropN o 5) by
          simp [mountOptStep, h, h2]]
        rw [mountOptsFold_snd os (acc.1, strDropN o 5)]
        simp only [h2, if_true]
        cases hr : os.filter isModeTok with
        | nil => simp [hr]
        | cons y ys =>
          rw [List.getLast?_cons_cons]
          have : ∃ z, (y :: ys).getLast? = some z :=
            ⟨(y :: ys).getLast (by simp), List.getLast?_eq_getLast _ (by simp)⟩
          rcases this with ⟨z, hz⟩
          simp [hz]
      · rw [show mountOptStep acc o = acc by simp [mountOptStep, h, h2]]
        rw [mountOptsFold_snd os acc]
        simp [h2]

theorem ctor_scan_aux (hostRoot : String) (isSock chanOk : String → Bool) :
    ∀ (cands : List String) (acc : Option String),
      cands.foldl
        (fun acc p =>
          if p = "" then acc
          else if isSock (hostRoot ++ p) then
            (if chanOk (hostRoot ++ p) then some (hostRoot ++ p) else none)
          else acc)
        acc =
      (match (liveSockets hostRoot isSock cands).getLast? with
       | none => acc
       | some p => if chanOk p then some p else none)
  | [], acc => by simp [liveSockets]
  | p :: ps, acc => by
    simp only [List.foldl_cons]
    by_cases hp : p = ""
    · rw [ctor_scan_aux hostRoot isSock chanOk ps]
      simp [liveSockets, hp]
    · by_cases hs : isSock (hostRoot ++ p)
      · rw [ctor_scan_aux hostRoot isSock chanOk ps]
        have hlive : liveSockets hostRoot isSock (p :: ps) =
            (hostRoot ++ p) :: liveSockets hostRoot isSock ps := by
          simp [liveSockets, hp, hs]
        rw [hlive]
        cases hr : liveSockets hostRoot isSock ps with
        | nil => simp [hp, hs]
        | cons y ys =>
          rw [List.getLast?_cons_cons]
          have : ∃ z, (y :: ys).getLast? = some z :=
            ⟨(y :: ys).getLast (by simp), List.getLast?_eq_getLast _ (by simp)⟩
          rcases this with ⟨z, hz⟩
          simp [hp, hs, hz]
      · rw [ctor_scan_aux hostRoot isSock chanOk ps]
        have hlive : liveSockets hostRoot isSock (p :: ps) =
            liveSockets hostRoot isSock ps := by
          simp [liveSockets, hp, hs]
        rw [hlive]
        simp [hp, hs]

/-- Full reduction of `resolve` on the success path: the cgroup set matches,
the backend is live, the daemon returns exactly one descriptor and the image
reference splits into at least two pieces. -/
theorem resolve_ok_unfold
    (f : String → ListResult) (limitsFn : LimitsKey → LimitsValue)
    (t : ThreadInfo) (cache : CacheState) (cid cg : String)
    (d : ContainerDesc) (s0 s1 : String) (rest : List String)
    (hm : matches_runc_cgroups t = some (cid, cg))
    (hd : f cid = ListResult.ok [d])
    (hsplit : sinsp_split d.image ':' = s0 :: s1 :: rest) :
    resolve ⟨some f⟩ limitsFn t cache =
      (if should_lookup cache cid then
        some (true, recPublished limitsFn t cid d s0 s1,
              { t with m_container_id := cid },
              add_container cache (recPublished limitsFn t cid d s0 s1),
              [.limitsQuery (limitsKeyOf t cid),
               .publish (recPublished limitsFn t cid d s0 s1),
               .notifyNew (recPublished limitsFn t cid d s0 s1)])
      else
        some (true, recWithLimits limitsFn t cid d s0 s1,
              { t with m_container_id := cid },
              cache, [.limitsQuery (limitsKeyOf t cid)])) := by
  simp only [resolve, hm, parse_containerd, hd, hsplit]
  rfl

/-! ## Claims -/

/-- C1: the claim says that with a null backend (channel construction failed
or no live socket was found) every subsequent `resolve` call returns false
without a fatal error, the null-backend branch being handled.  The source
has no such branch: for any process whose cgroup set matches the layout,
`parse_containerd` dereferences the null `m_interface`
(containerd.cpp:115), which the embedding records as undefined behaviour
(`none`) instead of the claimed `false` return. -/
theorem containerd_null_backend_crash
    (limitsFn : LimitsKey → LimitsValue) (t : ThreadInfo) (cache : CacheState)
    (cid cg : String)
    (hm : matches_runc_cgroups t = some (cid, cg)) :
    resolve ⟨none⟩ limitsFn t cache = none := by
  simp [resolve, hm, parse_containerd]

theorem containerd_null_backend_crash_witness :
    resolve ⟨none⟩ (fun _ => ⟨0, 0, 0, 0, 0⟩)
        ⟨[("cpu", "/default/abc")], ""⟩ ⟨[], []⟩ = none :=
  containerd_null_backend_crash (fun _ => ⟨0, 0, 0, 0, 0⟩)
    ⟨[("cpu", "/default/abc")], ""⟩ ⟨[], []⟩ "abc" "/default/abc" (by decide)

/-- C2 (amended): backend construction binds its query channel to the LAST
candidate path that exists as a filesystem socket, not the first — the
constructor loop has no break, so a later live candidate overwrites an
earlier binding (and if the last live candidate's channel probe fails the
backend ends up null even when an earlier candidate had succeeded).  Empty
entries are skipped without error. -/
theorem containerd_ctor_last_live_wins (hostRoot : String)
    (isSock chanOk : String → Bool) (cands : List String) :
    containerd_ctor_scan hostRoot isSock chanOk cands =
      (match (liveSockets hostRoot isSock cands).getLast? with
       | none => none
       | some p => if chanOk p then some p else none) :=
  ctor_scan_aux hostRoot isSock chanOk cands none

/-- C2 counterexample: when both fixed candidate paths exist as live sockets
and both channels are fine, the constructor ends bound to the second
candidate, not the first as the claim states. -/
theorem containerd_ctor_first_live_cex :
    containerd_ctor "" (fun _ => true) (fun _ => true) =
        some "/run/containerd/runtime2/containerd.sock" ∧
      "/run/containerd/runtime2/containerd.sock" ≠
        "/run/host-containerd/containerd.sock" :=
  ⟨rfl, by decide⟩

/-- C3 (amended): the host-side resource limits are queried and attached
whenever the daemon query succeeds with exactly one (well-formed)
descriptor — independently of the cache/publication outcome — but NOT
independently of daemon success: when the daemon query fails, `resolve`
returns false before the limits step, with no limits query and the record
untouched. -/
theorem containerd_limits_after_daemon_success
    (f : String → ListResult) (limitsFn : LimitsKey → LimitsValue)
    (t : ThreadInfo) (cache : CacheState) (cid cg : String)
    (hm : matches_runc_cgroups t = some (cid, cg)) :
    (∀ e, f cid = ListResult.err e →
        resolve ⟨some f⟩ limitsFn t cache =
          some (false, ContainerInfo.empty, t, cache, [])) ∧
    (∀ (d : ContainerDesc) (s0 s1 : String) (rest : List String),
        f cid = ListResult.ok [d] →
        sinsp_split d.image ':' = s0 :: s1 :: rest →
        ∃ b c t' cache' ev,
          resolve ⟨some f⟩ limitsFn t cache = some (b, c, t', cache', ev) ∧
          b = true ∧
          countLimitsQuery ev = 1 ∧
          ev.head? = some (.limitsQuery (limitsKeyOf t cid)) ∧
          c.m_memory_limit = (limitsFn (limitsKeyOf t cid)).m_memory_limit ∧
          c.m_cpu_shares = (limitsFn (limitsKeyOf t cid)).m_cpu_shares ∧
          c.m_cpu_quota = (limitsFn (limitsKeyOf t cid)).m_cpu_quota ∧
          c.m_cpu_period = (limitsFn (limitsKeyOf t cid)).m_cpu_period ∧
          c.m_cpuset_cpu_count = (limitsFn (limitsKeyOf t cid)).m_cpuset_cpu_count) := by
  constructor
  · intro e he
    simp [resolve, hm, parse_containerd, he]
  · intro d s0 s1 rest hd hsplit
    rw [resolve_ok_unfold f limitsFn t cache cid cg d s0 s1 rest hm hd hsplit]
    by_cases hl : should_lookup cache cid = true
    · rw [if_pos hl]
      refine ⟨_, _, _, _, _, rfl, rfl, ?_, rfl, ?_, ?_, ?_, ?_, ?_⟩ <;>
        simp [countLimitsQuery, recPublished, recWithLimits]
    · rw [if_neg hl]
      refine ⟨_, _, _, _, _, rfl, rfl, ?_, rfl, ?_, ?_, ?_, ?_, ?_⟩ <;>
        simp [countLimitsQuery, recWithLimits]

theorem containerd_limits_after_daemon_success_witness :
    (∀ e, (fun _ : String => ListResult.err "boom") "abc" = ListResult.err e →
        resolve ⟨some (fun _ => ListResult.err "boom")⟩ (fun _ => ⟨1, 2, 3, 4, 5⟩)
            ⟨[("cpu", "/default/abc")], ""⟩ ⟨[], []⟩ =
          some (false, ContainerInfo.empty, ⟨[("cpu", "/default/abc")], ""⟩, ⟨[], []⟩, [])) ∧
    (∀ (d : ContainerDesc) (s0 s1 : String) (rest : List String),
        (fun _ : String => ListResult.err "boom") "abc" = ListResult.ok [d] →
        sinsp_split d.image ':' = s0 :: s1 :: rest →
        ∃ b c t' cache' ev,
          resolve ⟨some (fun _ => ListResult.err "boom")⟩ (fun _ => ⟨1, 2, 3, 4, 5⟩)
              ⟨[("cpu", "/default/abc")], ""⟩ ⟨[], []⟩ = some (b, c, t', cache', ev) ∧
          b = true ∧
          countLimitsQuery ev = 1 ∧
          ev.head? = some (.limitsQuery (limitsKeyOf ⟨[("cpu", "/default/abc")], ""⟩ "abc")) ∧
          c.m_memory_limit = ((fun _ : LimitsKey => (⟨1, 2, 3, 4, 5⟩ : LimitsValue)) (limitsKeyOf ⟨[("cpu", "/default/abc")], ""⟩ "abc")).m_memory_limit ∧
          c.m_cpu_shares = ((fun _ : LimitsKey => (⟨1, 2, 3, 4, 5⟩ : LimitsValue)) (limitsKeyOf ⟨[("cpu", "/default/abc")], ""⟩ "abc")).m_cpu_shares ∧
          c.m_cpu_quota = ((fun _ : LimitsKey => (⟨1, 2, 3, 4, 5⟩ : LimitsValue)) (limitsKeyOf ⟨[("cpu", "/default/abc")], ""⟩ "abc")).m_cpu_quota ∧
          c.m_cpu_period = ((fun _ : LimitsKey => (⟨1, 2, 3, 4, 5⟩ : LimitsValue)) (limitsKeyOf ⟨[("cpu", "/default/abc")], ""⟩ "abc")).m_cpu_period ∧
          c.m_cpuset_cpu_count = ((fun _ : LimitsKey => (⟨1, 2, 3, 4, 5⟩ : LimitsValue)) (limitsKeyOf ⟨[("cpu", "/default/abc")], ""⟩ "abc")).m_cpuset_cpu_count) :=
  containerd_limits_after_daemon_success (fun _ => ListResult.err "boom")
    (fun _ => ⟨1, 2, 3, 4, 5⟩) ⟨[("cpu", "/default/abc")], ""⟩ ⟨[], []⟩
    "abc" "/default/abc" (by decide)

/-- C3 counterexample: the cgroup set matches but the daemon query fails;
`resolve` returns false with NO limits query event — the limits step is not
run "independent of whether the daemon query succeeded" as claimed. -/
theorem containerd_limits_skipped_on_rpc_error_cex :
    resolve ⟨some (fun _ => ListResult.err "transport")⟩ (fun _ => ⟨1, 2, 3, 4, 5⟩)
        ⟨[("cpu", "/default/abc")], ""⟩ ⟨[], []⟩ =
      some (false, ContainerInfo.empty, ⟨[("cpu", "/default/abc")], ""⟩, ⟨[], []⟩, []) :=
  rfl

/-- C4 (amended): for a descriptor whose image reference contains no `/`,
the produced record's repo field is NOT the empty string: `rfind("/")`
yields `npos`, and `substr(0, npos)` returns the whole string, so repo
equals the entire pre-`:` portion of the reference — identical to the image
name, which is the entire pre-`:` portion as the claim states. -/
theorem containerd_repo_without_slash
    (f : String → ListResult) (container : ContainerInfo) (cid : String)
    (d : ContainerDesc) (s0 s1 : String) (rest : List String)
    (hd : f cid = ListResult.ok [d])
    (hnoslash : ∀ ch ∈ d.image.data, ch ≠ '/')
    (hsplit : sinsp_split d.image ':' = s0 :: s1 :: rest) :
    ∃ c, parse_containerd (some f) container cid = some (true, c) ∧
      c.m_imagerepo = s0 ∧ c.m_image = s0 ∧
      s0 = ⟨d.image.data.takeWhile (fun ch => decide (ch ≠ ':'))⟩ := by
  have hs0 : s0 = ⟨d.image.data.takeWhile (fun ch => decide (ch ≠ ':'))⟩ := by
    have hh := splitChar_head ':' d.image.data
    cases hL : splitChar ':' d.image.data with
    | nil => exact absurd hL (splitChar_ne_nil ':' d.image.data)
    | cons a as =>
      rw [hL] at hh
      simp only [List.head?_cons, Option.some.injEq] at hh
      unfold sinsp_split at hsplit
      rw [hL] at hsplit
      simp only [List.map_cons, List.cons.injEq] at hsplit
      rw [← hsplit.1, hh]
  have hnos0 : ∀ a ∈ s0.data, a ≠ '/' := by
    intro a ha
    rw [hs0] at ha
    exact hnoslash a (mem_of_mem_takeWhile _ d.image.data a ha)
  have hrf : lastFind "/".data s0.data = none := lastFind_single_none '/' s0.data hnos0
  refine ⟨assembleRecord container cid d s0 s1, ?_, ?_, ?_, hs0⟩
  · simp [parse_containerd, hd, hsplit]
  · simp only [assembleRecord, hrf]
  · simp only [assembleRecord, hrf]
    simp [strDropN]

theorem containerd_repo_without_slash_witness :
    ∃ c, parse_containerd (some (fun _ => ListResult.ok [⟨"full", "ubuntu:22.04", [], none⟩]))
        ContainerInfo.empty "ub" = some (true, c) ∧
      c.m_imagerepo = "ubuntu" ∧ c.m_image = "ubuntu" ∧
      ("ubuntu" : String) = ⟨("ubuntu:22.04" : String).data.takeWhile (fun ch => decide (ch ≠ ':'))⟩ :=
  containerd_repo_without_slash (fun _ => ListResult.ok [⟨"full", "ubuntu:22.04", [], none⟩])
    ContainerInfo.empty "ub" ⟨"full", "ubuntu:22.04", [], none⟩ "ubuntu" "22.04" []
    rfl (by decide) (by decide)

/-- C4 counterexample: an image reference with no `/` (`"ubuntu:22.04"`)
produces repo `"ubuntu"`, not the empty string the claim requires. -/
theorem containerd_repo_without_slash_cex :
    (parse_containerd
        (some (fun _ => ListResult.ok [⟨"full", "ubuntu:22.04", [], none⟩]))
        ContainerInfo.empty "ub").map
        (fun r => (r.1, r.2.m_imagerepo, r.2.m_image)) =
      some (true, "ubuntu", "ubuntu") ∧ ("ubuntu" : String) ≠ "" :=
  ⟨rfl, by decide⟩

/-- C5 (amended): the produced record stores the daemon-reported descriptor
id as `full_id` unchecked; under the daemon's filter contract (`id~=` means
substring containment, so every returned descriptor id contains the
truncated id) `full_id` contains `id` as a substring — but `id` need not be
a PREFIX of `full_id`, since containment may hold at a non-zero offset. -/
theorem containerd_full_id_contains_id
    (f : String → ListResult) (container : ContainerInfo) (cid : String)
    (d : ContainerDesc) (s0 s1 : String) (rest : List String)
    (hd : f cid = ListResult.ok [d])
    (hhonest : hasSub d.id cid = true)
    (hsplit : sinsp_split d.image ':' = s0 :: s1 :: rest) :
    ∃ c, parse_containerd (some f) container cid = some (true, c) ∧
      c.m_id = cid ∧ c.m_full_id = d.id ∧
      hasSub c.m_full_id c.m_id = true := by
  refine ⟨assembleRecord container cid d s0 s1, ?_, rfl, rfl, hhonest⟩
  simp [parse_containerd, hd, hsplit]

theorem containerd_full_id_contains_id_witness :
    ∃ c, parse_containerd (some (fun _ => ListResult.ok [⟨"zabcw", "i:t", [], none⟩]))
        ContainerInfo.empty "abc" = some (true, c) ∧
      c.m_id = "abc" ∧ c.m_full_id = "zabcw" ∧
      hasSub c.m_full_id c.m_id = true :=
  containerd_full_id_contains_id (fun _ => ListResult.ok [⟨"zabcw", "i:t", [], none⟩])
    ContainerInfo.empty "abc" ⟨"zabcw", "i:t", [], none⟩ "i" "t" []
    rfl (by decide) (by decide)

/-- C5 counterexample: a daemon response whose single descriptor id
`"zabc"` contains the truncated id `"abc"` (so it passes the substring
filter) yields a record with `full_id = "zabc"` of which `id = "abc"` is
NOT a prefix — refuting the claim's prefix invariant. -/
theorem containerd_id_without_prefix_cex :
    (parse_containerd (some (fun _ => ListResult.ok [⟨"zabc", "img:tag", [], none⟩]))
        ContainerInfo.empty "abc").map (fun r => (r.1, r.2.m_id, r.2.m_full_id)) =
      some (true, "abc", "zabc") ∧
    hasSub "zabc" "abc" = true ∧
    strStartsWith "zabc" "abc" = false :=
  ⟨rfl, by decide, by decide⟩

/-- C6: calling `resolve` twice for the same process/container identity
publishes and notifies at most once in total: the second call finds the
identity already resolved in the cache, skips publication and notification,
still returns true, and still associates the process with the container
id. -/
theorem containerd_resolve_idempotent
    (f : String → ListResult) (limitsFn : LimitsKey → LimitsValue)
    (t : ThreadInfo) (cache : CacheState) (cid cg : String)
    (d : ContainerDesc) (s0 s1 : String) (rest : List String)
    (hm : matches_runc_cgroups t = some (cid, cg))
    (hd : f cid = ListResult.ok [d])
    (hsplit : sinsp_split d.image ':' = s0 :: s1 :: rest) :
    ∃ c1 t1 cache1 ev1 c2 t2 cache2 ev2,
      resolve ⟨some f⟩ limitsFn t cache = some (true, c1, t1, cache1, ev1) ∧
      resolve ⟨some f⟩ limitsFn t1 cache1 = some (true, c2, t2, cache2, ev2) ∧
      countPublish ev2 = 0 ∧ countNotify ev2 = 0 ∧
      countPublish ev1 + countPublish ev2 ≤ 1 ∧
      countNotify ev1 + countNotify ev2 ≤ 1 ∧
      t1.m_container_id = cid ∧ t2.m_container_id = cid := by
  have h1 := resolve_ok_unfold f limitsFn t cache cid cg d s0 s1 rest hm hd hsplit
  have hm1 : matches_runc_cgroups { t with m_container_id := cid } = some (cid, cg) := hm
  have h2 := fun cache1 =>
    resolve_ok_unfold f limitsFn { t with m_container_id := cid } cache1 cid cg
      d s0 s1 rest hm1 hd hsplit
  by_cases hl : should_lookup cache cid = true
  · rw [if_pos hl] at h1
    have hl2 : should_lookup
        (add_container cache (recPublished limitsFn t cid d s0 s1)) cid = false := by
      simp [should_lookup, add_container, recPublished, recWithLimits, assembleRecord]
    have h2' := h2 (add_container cache (recPublished limitsFn t cid d s0 s1))
    rw [if_neg (by simp [hl2])] at h2'
    refine ⟨_, _, _, _, _, _, _, _, h1, h2', ?_, ?_, ?_, ?_, rfl, rfl⟩ <;>
      simp [countPublish, countNotify]
  · rw [if_neg hl] at h1
    have h2' := h2 cache
    rw [if_neg hl] at h2'
    refine ⟨_, _, _, _, _, _, _, _, h1, h2', ?_, ?_, ?_, ?_, rfl, rfl⟩ <;>
      simp [countPublish, countNotify]

theorem containerd_resolve_idempotent_witness :
    ∃ c1 t1 cache1 ev1 c2 t2 cache2 ev2,
      resolve ⟨some (fun _ => ListResult.ok [⟨"abcfull", "r/i:t", [], none⟩])⟩
          (fun _ => ⟨1, 2, 3, 4, 5⟩) ⟨[("cpu", "/default/abc")], ""⟩ ⟨[], []⟩ =
        some (true, c1, t1, cache1, ev1) ∧
      resolve ⟨some (fun _ => ListResult.ok [⟨"abcfull", "r/i:t", [], none⟩])⟩
          (fun _ => ⟨1, 2, 3, 4, 5⟩) t1 cache1 = some (true, c2, t2, cache2, ev2) ∧
      countPublish ev2 = 0 ∧ countNotify ev2 = 0 ∧
      countPublish ev1 + countPublish ev2 ≤ 1 ∧
      countNotify ev1 + countNotify ev2 ≤ 1 ∧
      t1.m_container_id = "abc" ∧ t2.m_container_id = "abc" :=
  containerd_resolve_idempotent (fun _ => ListResult.ok [⟨"abcfull", "r/i:t", [], none⟩])
    (fun _ => ⟨1, 2, 3, 4, 5⟩) ⟨[("cpu", "/default/abc")], ""⟩ ⟨[], []⟩
    "abc" "/default/abc" ⟨"abcfull", "r/i:t", [], none⟩ "r/i" "t" []
    (by decide) rfl (by decide)

/-- C7: a descriptor whose runtime-spec document is malformed (the ignored
`Json::Reader::parse` fails, leaving a null JSON value) still resolves
successfully: `parse_containerd` returns true and the record carries empty
mounts and empty env. -/
theorem containerd_malformed_spec_doc_ok
    (f : String → ListResult) (cid : String)
    (d : ContainerDesc) (s0 s1 : String) (rest : List String)
    (hd : f cid = ListResult.ok [d])
    (hspec : d.spec = none)
    (hsplit : sinsp_split d.image ':' = s0 :: s1 :: rest) :
    ∃ c, parse_containerd (some f) ContainerInfo.empty cid = some (true, c) ∧
      c.m_mounts = [] ∧ c.m_env = [] := by
  refine ⟨assembleRecord ContainerInfo.empty cid d s0 s1, ?_, ?_, ?_⟩
  · simp [parse_containerd, hd, hsplit]
  · simp [assembleRecord, hspec, specExtract, ContainerInfo.empty]
  · simp [assembleRecord, hspec, specExtract, ContainerInfo.empty]

theorem containerd_malformed_spec_doc_ok_witness :
    ∃ c, parse_containerd (some (fun _ => ListResult.ok [⟨"xfull", "r/i:t", [], none⟩]))
        ContainerInfo.empty "x" = some (true, c) ∧
      c.m_mounts = [] ∧ c.m_env = [] :=
  containerd_malformed_spec_doc_ok (fun _ => ListResult.ok [⟨"xfull", "r/i:t", [], none⟩])
    "x" ⟨"xfull", "r/i:t", [], none⟩ "r/i" "t" [] rfl rfl (by decide)

/-- C8: a daemon response with zero descriptors or more than one descriptor
makes `resolve` return false: the local record stays default-constructed, the
thread association and the cache are untouched, and no event (publication or
notification) is emitted. -/
theorem containerd_ambiguous_response_false
    (f : String → ListResult) (limitsFn : LimitsKey → LimitsValue)
    (t : ThreadInfo) (cache : CacheState) (cid cg : String) (l : List ContainerDesc)
    (hm : matches_runc_cgroups t = some (cid, cg))
    (hl : f cid = ListResult.ok l) (hne : l.length ≠ 1) :
    resolve ⟨some f⟩ limitsFn t cache =
      some (false, ContainerInfo.empty, t, cache, []) := by
  rcases l with _ | ⟨a, _ | ⟨b, rest⟩⟩
  · simp [resolve, hm, parse_containerd, hl]
  · simp at hne
  · simp [resolve, hm, parse_containerd, hl]

theorem containerd_ambiguous_response_false_witness :
    resolve ⟨some (fun _ => ListResult.ok [])⟩ (fun _ => ⟨1, 2, 3, 4, 5⟩)
        ⟨[("cpu", "/default/abc")], ""⟩ ⟨[], []⟩ =
      some (false, ContainerInfo.empty, ⟨[("cpu", "/default/abc")], ""⟩, ⟨[], []⟩, []) :=
  containerd_ambiguous_response_false (fun _ => ListResult.ok [])
    (fun _ => ⟨1, 2, 3, 4, 5⟩) ⟨[("cpu", "/default/abc")], ""⟩ ⟨[], []⟩
    "abc" "/default/abc" [] (by decide) rfl (by decide)

/-- C9 (amended): for every well-formed specification document, each
produced mount tuple has `writable` false if and only if some option token
equals exactly `"ro"`; `mode` equal to the value of the LAST option token
accepted by the source's test `opt.rfind("mode=") == 0` — i.e. a token whose
last occurrence of `"mode="` sits at position 0, which excludes tokens in
which `"mode="` recurs later — empty if none; `propagation` equal to the
document's single shared `linux.rootfsPropagation` field for every mount;
and mount order following the document's mount list. -/
theorem containerd_mount_tuple_semantics (sj : SpecJson) :
    (specExtract (some sj)).1 =
      sj.mounts.map (fun m =>
        { m_source := m.source, m_dest := m.destination,
          m_mode := modeOfOptions m.options,
          m_rdwr := !(m.options.any isRoTok),
          m_propagation := sj.rootfsPropagation }) := by
  simp only [specExtract]
  congr 1
  funext m
  simp only [mountOptsScan]
  rw [show (m.options.foldl mountOptStep (false, "")).2 =
        (((m.options.filter isModeTok).getLast?).map (fun t => strDropN t 5)).getD
          (false, ("" : String)).2
      from mountOptsFold_snd m.options (false, "")]
  rw [show (m.options.foldl mountOptStep (false, "")).1 =
        ((false, ("" : String)).1 || m.options.any isRoTok)
      from mountOptsFold_fst m.options (false, "")]
  simp [modeOfOptions]

/-- C9 counterexample: the option token `"mode=mode=1"` has the form
`mode=<value>` with value `"mode=1"`, yet the produced mount's mode is the
empty string — `rfind("mode=")` finds the later occurrence at position 5,
so the source's position-0 test rejects the token. -/
theorem containerd_mode_token_cex :
    (specExtract (some ⟨[⟨"/h", "/m", ["mode=mode=1"]⟩], "rprivate", []⟩)).1 =
      [{ m_source := "/h", m_dest := "/m", m_mode := "", m_rdwr := true,
         m_propagation := "rprivate" }] ∧
    strStartsWith "mode=mode=1" "mode=" = true ∧
    strDropN "mode=mode=1" 5 = "mode=1" ∧
    ("mode=1" : String) ≠ "" :=
  ⟨rfl, by decide, by decide, by decide⟩

/-- C10: every early false return of `resolve` — no cgroup path containing
the layout infix `/default/`, an RPC transport/status error, or an ambiguous
(zero or multiple descriptor) response — yields `resolve = false` with the
thread's container association untouched, the cache unmutated and no events
emitted. -/
theorem containerd_early_false_frame
    (be : ContainerdEngine) (limitsFn : LimitsKey → LimitsValue)
    (t : ThreadInfo) (cache : CacheState)
    (h : (∀ sc ∈ t.cgroups, hasSub sc.2 cgroupLayoutToken = false) ∨
         (∃ cid cg f, matches_runc_cgroups t = some (cid, cg) ∧
            be.m_interface = some f ∧
            ((∃ e, f cid = ListResult.err e) ∨
             (∃ l, f cid = ListResult.ok l ∧ l.length ≠ 1)))) :
    resolve be limitsFn t cache =
      some (false, ContainerInfo.empty, t, cache, []) := by
  rcases h with h | ⟨cid, cg, f, hm, hif, h⟩
  · have hnone : matches_runc_cgroups t = none := matches_list_none t.cgroups h
    simp [resolve, hnone]
  · rcases h with ⟨e, he⟩ | ⟨l, hl, hne⟩
    · simp [resolve, hm, hif, parse_containerd, he]
    · rcases l with _ | ⟨a, _ | ⟨b, rest⟩⟩
      · simp [resolve, hm, hif, parse_containerd, hl]
      · simp at hne
      · simp [resolve, hm, hif, parse_containerd, hl]

theorem containerd_early_false_frame_witness :
    resolve ⟨some (fun _ => ListResult.ok [])⟩ (fun _ => ⟨1, 2, 3, 4, 5⟩)
        ⟨[("cpu", "/user.slice/session-1.scope")], ""⟩ ⟨[], []⟩ =
      some (false, ContainerInfo.empty,
            ⟨[("cpu", "/user.slice/session-1.scope")], ""⟩, ⟨[], []⟩, []) :=
  containerd_early_false_frame ⟨some (fun _ => ListResult.ok [])⟩
    (fun _ => ⟨1, 2, 3, 4, 5⟩) ⟨[("cpu", "/user.slice/session-1.scope")], ""⟩
    ⟨[], []⟩ (Or.inl (by decide))

end Libsinsp
